import Mathlib

set_option linter.unusedVariables false

/-
Verification of the Trusty keymaster proxy (trusty_keymaster_device.cpp)
and the init import section parser (import_parser.cpp), as a shallow
embedding in Lean 4.

Machine integers are modelled as Nat/Int; byte buffers as List Nat;
nullable C pointers as Option; the transport call and the response
deserializer are abstracted as explicit function/value parameters, and
each proxy method reports how many times Send was reached so that
"transport never invoked" is expressible.
-/

namespace keymaster

/-- The keymaster domain error enumeration (keymaster_error_t).  Only the
values referenced by trusty_keymaster_device.cpp are included; `other`
carries any remaining enumeration value so that a response status can be
passed through unchanged. -/
inductive keymaster_error_t where
  | KM_ERROR_OK
  | KM_ERROR_SECURE_HW_ACCESS_DENIED
  | KM_ERROR_OPERATION_CANCELLED
  | KM_ERROR_UNIMPLEMENTED
  | KM_ERROR_MEMORY_ALLOCATION_FAILED
  | KM_ERROR_SECURE_HW_BUSY
  | KM_ERROR_SECURE_HW_COMMUNICATION_FAILED
  | KM_ERROR_INVALID_INPUT_LENGTH
  | KM_ERROR_UNKNOWN_ERROR
  | KM_ERROR_VERSION_MISMATCH
  | KM_ERROR_INVALID_ARGUMENT
  | KM_ERROR_UNEXPECTED_NULL_POINTER
  | other (code : Int)
deriving DecidableEq, Repr

open keymaster_error_t

/-- Linux errno value EPERM (from the platform C headers). -/
def EPERM : Int := 1
/-- Linux errno value EACCES. -/
def EACCES : Int := 13
/-- Linux errno value ECANCELED. -/
def ECANCELED : Int := 125
/-- Linux errno value ENODEV. -/
def ENODEV : Int := 19
/-- Linux errno value ENOMEM. -/
def ENOMEM : Int := 12
/-- Linux errno value EBUSY. -/
def EBUSY : Int := 16
/-- Linux errno value EIO. -/
def EIO : Int := 5
/-- Linux errno value EOVERFLOW. -/
def EOVERFLOW : Int := 75

/-- translate_error, trusty_keymaster_device.cpp lines 44-73: maps a
transport/OS status code to the domain error enumeration.  The C switch
is rendered as an if-chain on the same negated errno constants; the
default arm is the final else. -/
def translate_error (err : Int) : keymaster_error_t :=
  if err = 0 then KM_ERROR_OK
  else if err = -EPERM then KM_ERROR_SECURE_HW_ACCESS_DENIED
  else if err = -EACCES then KM_ERROR_SECURE_HW_ACCESS_DENIED
  else if err = -ECANCELED then KM_ERROR_OPERATION_CANCELLED
  else if err = -ENODEV then KM_ERROR_UNIMPLEMENTED
  else if err = -ENOMEM then KM_ERROR_MEMORY_ALLOCATION_FAILED
  else if err = -EBUSY then KM_ERROR_SECURE_HW_BUSY
  else if err = - EIO then KM_ERROR_SECURE_HW_COMMUNICATION_FAILED
  else if err = -EOVERFLOW then KM_ERROR_INVALID_INPUT_LENGTH
  else KM_ERROR_UNKNOWN_ERROR

/-- Platform page size (PAGE_SIZE on the targeted platform). -/
def PAGE_SIZE : Nat := 4096

/-- Size in bytes of struct keymaster_message: a single uint32 command
field followed by a flexible payload array.  The struct itself lives in
keymaster_ipc.h, outside src; the spec describes the send capacity as the
page size minus message- and transport-header overhead. -/
def sizeof_keymaster_message : Nat := 4

/-- RECV_BUF_SIZE, line 39: the receive buffer capacity. -/
def RECV_BUF_SIZE : Nat := PAGE_SIZE

/-- SEND_BUF_SIZE, line 40: page size minus the keymaster message header
and the 16-byte tipc transport header. -/
def SEND_BUF_SIZE : Nat := PAGE_SIZE - sizeof_keymaster_message - 16

/-- A deserialized keymaster response, reduced to the one field Send
reads: the embedded status code (KeymasterResponse::error). -/
structure KeymasterResponse where
  error : keymaster_error_t
deriving DecidableEq, Repr

/-- Writes `content` over the front of `buf`, leaving the rest of `buf`
unchanged: the effect of serializing `content.length` bytes into a stack
buffer, or of the transport filling the received bytes into the front of
the receive buffer. -/
def fillFront (content buf : List Nat) : List Nat :=
  content ++ buf.drop content.length

/-- Modelled from the spec: the Eraser scope guard (declared in the
keymaster support library, not under src) overwrites the full capacity of
the guarded buffer with zeros when the scope exits, on every exit path. -/
def eraserClear (buf : List Nat) : List Nat :=
  List.replicate buf.length 0

/-- The observable outcome of one Send call: the returned error, how many
times the transport (trusty_keymaster_call) was invoked, and the final
contents of the two stack buffers after their scope ended (none when the
early return fired before the buffers were declared). -/
structure SendOutcome where
  result : keymaster_error_t
  transportCalls : Nat
  send_buf : Option (List Nat)
  recv_buf : Option (List Nat)
deriving DecidableEq, Repr

/-- TrustyKeymasterDevice::Send, lines 364-398.  The transport call is
abstracted by its outcome (return code `rc` and received bytes `recv`),
the response deserializer by `deser`; `init_send` and `init_recv` are the
arbitrary initial contents of the two stack buffers; `req_bytes` is the
serialized request (so req.SerializedSize() is req_bytes.length).  On the
oversized-request path the buffers are never declared; on every other
path both Erasers fire when Send returns. -/
def Send (init_send init_recv req_bytes : List Nat) (rc : Int)
    (recv : List Nat) (deser : List Nat → Option KeymasterResponse) :
    SendOutcome :=
  if req_bytes.length > SEND_BUF_SIZE then
    { result := KM_ERROR_MEMORY_ALLOCATION_FAILED, transportCalls := 0,
      send_buf := none, recv_buf := none }
  else
    let send_buf := fillFront req_bytes init_send
    if rc < 0 then
      { result := translate_error rc, transportCalls := 1,
        send_buf := some (eraserClear send_buf),
        recv_buf := some (eraserClear init_recv) }
    else
      let recv_buf := fillFront recv init_recv
      match deser recv with
      | none =>
        { result := KM_ERROR_UNKNOWN_ERROR, transportCalls := 1,
          send_buf := some (eraserClear send_buf),
          recv_buf := some (eraserClear recv_buf) }
      | some rsp =>
        { result := rsp.error, transportCalls := 1,
          send_buf := some (eraserClear send_buf),
          recv_buf := some (eraserClear recv_buf) }

/-- Keymaster tag KM_TAG_OS_VERSION (KM_UINT | 705, from the keymaster
definitions header, outside src): the platform OS version parameter. -/
def TAG_OS_VERSION : Nat := 805307073

/-- Keymaster tag KM_TAG_OS_PATCHLEVEL (KM_UINT | 706). -/
def TAG_OS_PATCHLEVEL : Nat := 805307074

/-- A keymaster_key_param_set_t, reduced to what configure reads from it:
an association list of (tag, uint value) entries. -/
def ParamSet := List (Nat × Nat)

/-- AuthorizationSet::GetTagValue for a uint tag: finds the first entry
with the given tag and yields its value, or none when the tag is absent. -/
def GetTagValue (s : ParamSet) (tag : Nat) : Option Nat :=
  match List.find? (fun p => p.1 == tag) s with
  | some p => some p.2
  | none => none

/-- A key blob / data blob: opaque bytes. -/
def Blob := List Nat

/-- The proxy instance state the methods read: the sticky error field and
the negotiated message version. -/
structure TrustyKeymasterDevice where
  error_ : keymaster_error_t
  message_version_ : Int
deriving DecidableEq, Repr

/-- The observable outcome of one proxy method call: the returned error,
how many times the method reached Send (the transport is only ever
invoked from inside Send), and the instance state after the call. -/
structure MethodOutcome where
  result : keymaster_error_t
  sendCalls : Nat
  dev : TrustyKeymasterDevice
deriving DecidableEq, Repr

/-- TrustyKeymasterDevice::TrustyKeymasterDevice, lines 75-133, the part
after the dispatch-table setup.  `connect_rc` is the return code of
trusty_keymaster_connect; `getVersionErr` is the result of the
Send(KM_GET_VERSION, ...) call; `msg_ver` is the value that
MessageVersion(major, minor, subminor) computes for the reported triple
(MessageVersion lives in the keymaster support library, outside src;
per the spec a triple the local side cannot represent yields a negative
value).  message_version_ is left 0 on the paths that return before it
is assigned. -/
def construct (connect_rc : Int) (getVersionErr : keymaster_error_t)
    (msg_ver : Int) : TrustyKeymasterDevice :=
  let error0 := translate_error connect_rc
  if connect_rc < 0 then
    { error_ := error0, message_version_ := 0 }
  else
    if getVersionErr = KM_ERROR_INVALID_ARGUMENT ∨
       getVersionErr = KM_ERROR_UNIMPLEMENTED then
      { error_ := KM_ERROR_VERSION_MISMATCH, message_version_ := 0 }
    else if msg_ver < 0 then
      { error_ := KM_ERROR_VERSION_MISMATCH, message_version_ := msg_ver }
    else
      { error_ := getVersionErr, message_version_ := msg_ver }

namespace TrustyKeymasterDevice

/-- TrustyKeymasterDevice::configure, lines 139-164.  `params` is the
nullable parameter-set pointer; `sendResult` abstracts the outcome of the
Send(KM_CONFIGURE, ...) call when it is reached. -/
def configure (dev : TrustyKeymasterDevice) (params : Option ParamSet)
    (sendResult : keymaster_error_t) : MethodOutcome :=
  if dev.error_ ≠ KM_ERROR_OK then
    { result := dev.error_, sendCalls := 0, dev := dev }
  else
    match params with
    | none =>
      { result := KM_ERROR_UNEXPECTED_NULL_POINTER, sendCalls := 0, dev := dev }
    | some params_copy =>
      match GetTagValue params_copy TAG_OS_VERSION,
            GetTagValue params_copy TAG_OS_PATCHLEVEL with
      | some _, some _ =>
        let err := sendResult
        if err ≠ KM_ERROR_OK then
          { result := err, sendCalls := 1, dev := dev }
        else
          { result := KM_ERROR_OK, sendCalls := 1, dev := dev }
      | _, _ =>
        { result := KM_ERROR_INVALID_ARGUMENT, sendCalls := 0, dev := dev }

/-- TrustyKeymasterDevice::add_rng_entropy, lines 166-169: a stub that
logs and returns KM_ERROR_OK. -/
def add_rng_entropy (dev : TrustyKeymasterDevice) (data : Option Blob)
    (data_length : Nat) : MethodOutcome :=
  { result := KM_ERROR_OK, sendCalls := 0, dev := dev }

/-- TrustyKeymasterDevice::generate_key, lines 171-176: a stub.  Output
pointers are omitted since the function never writes through them. -/
def generate_key (dev : TrustyKeymasterDevice)
    (params : Option ParamSet) : MethodOutcome :=
  { result := KM_ERROR_OK, sendCalls := 0, dev := dev }

/-- TrustyKeymasterDevice::get_key_characteristics, lines 178-183: a stub. -/
def get_key_characteristics (dev : TrustyKeymasterDevice)
    (key_blob : Option Blob) (client_id : Option Blob)
    (app_data : Option Blob) : MethodOutcome :=
  { result := KM_ERROR_OK, sendCalls := 0, dev := dev }

/-- TrustyKeymasterDevice::import_key, lines 185-191: a stub. -/
def import_key (dev : TrustyKeymasterDevice) (params : Option ParamSet)
    (key_format : Nat) (key_data : Option Blob) : MethodOutcome :=
  { result := KM_ERROR_OK, sendCalls := 0, dev := dev }

/-- TrustyKeymasterDevice::export_key, lines 193-200: a stub. -/
def export_key (dev : TrustyKeymasterDevice) (export_format : Nat)
    (key_to_export : Option Blob) (client_id : Option Blob)
    (app_data : Option Blob) : MethodOutcome :=
  { result := KM_ERROR_OK, sendCalls := 0, dev := dev }

/-- TrustyKeymasterDevice::attest_key, lines 202-207: a stub. -/
def attest_key (dev : TrustyKeymasterDevice) (key_to_attest : Option Blob)
    (attest_params : Option ParamSet) : MethodOutcome :=
  { result := KM_ERROR_OK, sendCalls := 0, dev := dev }

/-- TrustyKeymasterDevice::upgrade_key, lines 209-214: a stub. -/
def upgrade_key (dev : TrustyKeymasterDevice) (key_to_upgrade : Option Blob)
    (upgrade_params : Option ParamSet) : MethodOutcome :=
  { result := KM_ERROR_OK, sendCalls := 0, dev := dev }

/-- TrustyKeymasterDevice::begin, lines 216-223: a stub. -/
def begin (dev : TrustyKeymasterDevice) (purpose : Nat)
    (key : Option Blob) (in_params : Option ParamSet) : MethodOutcome :=
  { result := KM_ERROR_OK, sendCalls := 0, dev := dev }

/-- TrustyKeymasterDevice::update, lines 225-233: a stub. -/
def update (dev : TrustyKeymasterDevice) (operation_handle : Nat)
    (in_params : Option ParamSet) (input : Option Blob) : MethodOutcome :=
  { result := KM_ERROR_OK, sendCalls := 0, dev := dev }

/-- TrustyKeymasterDevice::finish, lines 235-243: a stub. -/
def finish (dev : TrustyKeymasterDevice) (operation_handle : Nat)
    (in_params : Option ParamSet) (input : Option Blob)
    (signature : Option Blob) : MethodOutcome :=
  { result := KM_ERROR_OK, sendCalls := 0, dev := dev }

/-- TrustyKeymasterDevice::abort, lines 245-248: a stub. -/
def abort (dev : TrustyKeymasterDevice) (operation_handle : Nat) :
    MethodOutcome :=
  { result := KM_ERROR_OK, sendCalls := 0, dev := dev }

end TrustyKeymasterDevice

end keymaster

namespace init

/-- The ImportParser state the two member functions touch: the recorded
filename of the importing file and the pending import list of
(expanded path, line number) pairs. -/
structure ImportParser where
  filename_ : String
  imports_ : List (String × Int)
deriving DecidableEq, Repr

/-- The outcome of ImportParser::ParseSection: the bool return value, the
parser state afterwards, and the error string written through `err` when
the call fails. -/
structure ParseSectionOutcome where
  ret : Bool
  st : ImportParser
  err : Option String
deriving DecidableEq, Repr

/-- ImportParser::ParseSection, import_parser.cpp lines 23-41.
`expand_props` (declared in util.h, outside src) is abstracted as a
function returning the expanded string or none on failure.  args.getD 1
is args[1], which the args.size() == 2 branch guarantees exists. -/
def ParseSection (st : ImportParser)
    (expand_props : String → Option String) (args : List String)
    (filename : String) (line : Int) : ParseSectionOutcome :=
  if args.length ≠ 2 then
    { ret := false, st := st, err := some "single argument needed for import\n" }
  else
    match expand_props (args.getD 1 "") with
    | none =>
      { ret := false, st := st, err := some "error while expanding import" }
    | some conf_file =>
      { ret := true,
        st := { filename_ := if st.filename_.isEmpty then filename else st.filename_,
                imports_ := st.imports_ ++ [(conf_file, line)] },
        err := none }

end init

namespace keymaster

/-- Filling the front of a buffer with no more content than its capacity
leaves the buffer length unchanged. -/
theorem fillFront_length (c b : List Nat) (h : c.length ≤ b.length) :
    (fillFront c b).length = b.length := by
  simp only [fillFront, List.length_append, List.length_drop]
  omega

/-- C3: translate_error maps 0 to OK, -EPERM and -EACCES to
secure-hardware-access-denied, -ECANCELED to operation-cancelled, -ENODEV
to unimplemented, -ENOMEM to memory-allocation-failed, -EBUSY to
secure-hardware-busy, - EIO to secure-hardware-communication-failed, and
-EOVERFLOW to invalid-input-length; every code outside this table maps to
unknown-error.  It is a total Lean function, so it is defined (and in
particular does not abort) on every input. -/
theorem C3_translate_error_total :
    translate_error 0 = keymaster_error_t.KM_ERROR_OK ∧
    translate_error (-EPERM) = keymaster_error_t.KM_ERROR_SECURE_HW_ACCESS_DENIED ∧
    translate_error (-EACCES) = keymaster_error_t.KM_ERROR_SECURE_HW_ACCESS_DENIED ∧
    translate_error (-ECANCELED) = keymaster_error_t.KM_ERROR_OPERATION_CANCELLED ∧
    translate_error (-ENODEV) = keymaster_error_t.KM_ERROR_UNIMPLEMENTED ∧
    translate_error (-ENOMEM) = keymaster_error_t.KM_ERROR_MEMORY_ALLOCATION_FAILED ∧
    translate_error (-EBUSY) = keymaster_error_t.KM_ERROR_SECURE_HW_BUSY ∧
    translate_error (- EIO) = keymaster_error_t.KM_ERROR_SECURE_HW_COMMUNICATION_FAILED ∧
    translate_error (-EOVERFLOW) = keymaster_error_t.KM_ERROR_INVALID_INPUT_LENGTH ∧
    ∀ e : Int,
      e ∉ ([0, -EPERM, -EACCES, -ECANCELED, -ENODEV, -ENOMEM, -EBUSY, - EIO,
            -EOVERFLOW] : List Int) →
      translate_error e = keymaster_error_t.KM_ERROR_UNKNOWN_ERROR := by
  refine ⟨by decide, by decide, by decide, by decide, by decide, by decide,
    by decide, by decide, by decide, ?_⟩
  intro e he
  simp only [List.mem_cons, List.not_mem_nil, or_false] at he
  push_neg at he
  obtain ⟨h0, h1, h2, h3, h4, h5, h6, h7, h8⟩ := he
  simp only [translate_error, if_neg h0, if_neg h1, if_neg h2, if_neg h3,
    if_neg h4, if_neg h5, if_neg h6, if_neg h7, if_neg h8]

/-- Witness for C3 at the concrete out-of-table code 42 and the in-table
code 0. -/
theorem C3_translate_error_total_witness :
    translate_error 42 = keymaster_error_t.KM_ERROR_UNKNOWN_ERROR ∧
    translate_error 0 = keymaster_error_t.KM_ERROR_OK :=
  ⟨C3_translate_error_total.2.2.2.2.2.2.2.2.2 42 (by decide),
   C3_translate_error_total.1⟩

/-- C4: a request whose serialized size exceeds SEND_BUF_SIZE makes Send
return KM_ERROR_MEMORY_ALLOCATION_FAILED with zero transport
invocations. -/
theorem C4_send_oversized (init_send init_recv req_bytes : List Nat)
    (rc : Int) (recv : List Nat)
    (deser : List Nat → Option KeymasterResponse)
    (h : req_bytes.length > SEND_BUF_SIZE) :
    (Send init_send init_recv req_bytes rc recv deser).result =
      keymaster_error_t.KM_ERROR_MEMORY_ALLOCATION_FAILED ∧
    (Send init_send init_recv req_bytes rc recv deser).transportCalls = 0 := by
  simp [Send, if_pos h]

/-- Witness for C4 at a concrete 4077-byte request (one past the 4076
byte send capacity). -/
theorem C4_send_oversized_witness :
    (Send [] [] (List.replicate 4077 0) 0 [] (fun _ => none)).result =
      keymaster_error_t.KM_ERROR_MEMORY_ALLOCATION_FAILED ∧
    (Send [] [] (List.replicate 4077 0) 0 [] (fun _ => none)).transportCalls = 0 :=
  C4_send_oversized [] [] (List.replicate 4077 0) 0 [] (fun _ => none)
    (by rw [List.length_replicate]
        norm_num [SEND_BUF_SIZE, PAGE_SIZE, sizeof_keymaster_message])

/-- C5: after a successful transport call (rc not negative, request not
oversized), a response that fails to deserialize makes Send return the
generic KM_ERROR_UNKNOWN_ERROR, while a response that deserializes makes
Send return its embedded status code unchanged, OK or not. -/
theorem C5_send_response_path (init_send init_recv req_bytes : List Nat)
    (rc : Int) (recv : List Nat)
    (deser : List Nat → Option KeymasterResponse)
    (hsize : ¬ req_bytes.length > SEND_BUF_SIZE) (hrc : ¬ rc < 0) :
    (deser recv = none →
      (Send init_send init_recv req_bytes rc recv deser).result =
        keymaster_error_t.KM_ERROR_UNKNOWN_ERROR) ∧
    (∀ rsp, deser recv = some rsp →
      (Send init_send init_recv req_bytes rc recv deser).result = rsp.error) := by
  constructor
  · intro hd
    simp [Send, if_neg hsize, if_neg hrc, hd]
  · intro rsp hd
    simp [Send, if_neg hsize, if_neg hrc, hd]

/-- Witness for C5: a failing deserializer yields unknown-error, a
deserializer producing a busy-status response yields that status. -/
theorem C5_send_response_path_witness :
    (Send [] [] [] 0 [] (fun _ => none)).result =
      keymaster_error_t.KM_ERROR_UNKNOWN_ERROR ∧
    (Send [] [] [] 0 []
      (fun _ => some ⟨keymaster_error_t.KM_ERROR_SECURE_HW_BUSY⟩)).result =
      keymaster_error_t.KM_ERROR_SECURE_HW_BUSY := by
  constructor
  · exact (C5_send_response_path [] [] [] 0 [] (fun _ => none)
      (by decide) (by decide)).1 rfl
  · exact (C5_send_response_path [] [] [] 0 []
      (fun _ => some ⟨keymaster_error_t.KM_ERROR_SECURE_HW_BUSY⟩)
      (by decide) (by decide)).2 ⟨keymaster_error_t.KM_ERROR_SECURE_HW_BUSY⟩ rfl

/-- C7: whenever the two stack buffers of Send are declared (every path
except the oversized-request early return, which exits before any buffer
exists), their final contents after the scope ends are all-zero over the
full capacity, on the transport-failure, decode-failure, remote-error and
success paths alike. -/
theorem C7_send_buffers_zeroed (init_send init_recv req_bytes : List Nat)
    (rc : Int) (recv : List Nat)
    (deser : List Nat → Option KeymasterResponse)
    (hs : init_send.length = SEND_BUF_SIZE)
    (hr : init_recv.length = RECV_BUF_SIZE)
    (hrecv : recv.length ≤ RECV_BUF_SIZE) :
    (req_bytes.length > SEND_BUF_SIZE →
      (Send init_send init_recv req_bytes rc recv deser).send_buf = none ∧
      (Send init_send init_recv req_bytes rc recv deser).recv_buf = none) ∧
    (¬ req_bytes.length > SEND_BUF_SIZE →
      (Send init_send init_recv req_bytes rc recv deser).send_buf =
        some (List.replicate SEND_BUF_SIZE 0) ∧
      (Send init_send init_recv req_bytes rc recv deser).recv_buf =
        some (List.replicate RECV_BUF_SIZE 0)) := by
  constructor
  · intro hov
    simp [Send, if_pos hov]
  · intro hov
    have hsend : (fillFront req_bytes init_send).length = SEND_BUF_SIZE := by
      rw [fillFront_length req_bytes init_send (by omega)]
      exact hs
    have hrcv : (fillFront recv init_recv).length = RECV_BUF_SIZE := by
      rw [fillFront_length recv init_recv (by omega)]
      exact hr
    by_cases hrc : rc < 0
    · simp [Send, if_neg hov, if_pos hrc, eraserClear, hsend, hr]
    · cases hd : deser recv <;>
        simp [Send, if_neg hov, if_neg hrc, hd, eraserClear, hsend, hrcv]

/-- Witness for C7 with concrete nonzero initial buffer contents, an
empty request, empty received bytes and a failing deserializer. -/
theorem C7_send_buffers_zeroed_witness :
    (([] : List Nat).length > SEND_BUF_SIZE →
      (Send (List.replicate 4076 7) (List.replicate 4096 9) [] 0 []
        (fun _ => none)).send_buf = none ∧
      (Send (List.replicate 4076 7) (List.replicate 4096 9) [] 0 []
        (fun _ => none)).recv_buf = none) ∧
    (¬ ([] : List Nat).length > SEND_BUF_SIZE →
      (Send (List.replicate 4076 7) (List.replicate 4096 9) [] 0 []
        (fun _ => none)).send_buf = some (List.replicate SEND_BUF_SIZE 0) ∧
      (Send (List.replicate 4076 7) (List.replicate 4096 9) [] 0 []
        (fun _ => none)).recv_buf = some (List.replicate RECV_BUF_SIZE 0)) :=
  C7_send_buffers_zeroed (List.replicate 4076 7) (List.replicate 4096 9)
    [] 0 [] (fun _ => none)
    (by rw [List.length_replicate]
        norm_num [SEND_BUF_SIZE, PAGE_SIZE, sizeof_keymaster_message])
    (by rw [List.length_replicate]
        norm_num [RECV_BUF_SIZE, PAGE_SIZE])
    (by simp [RECV_BUF_SIZE, PAGE_SIZE])

/-- C1 is false as stated: begin, an unimplemented stub, returns
KM_ERROR_OK on an instance whose stored error state is
KM_ERROR_VERSION_MISMATCH, instead of returning that stored error. -/
theorem C1_counterexample :
    (⟨keymaster_error_t.KM_ERROR_VERSION_MISMATCH, 0⟩ :
      TrustyKeymasterDevice).error_ ≠ keymaster_error_t.KM_ERROR_OK ∧
    (TrustyKeymasterDevice.begin
      ⟨keymaster_error_t.KM_ERROR_VERSION_MISMATCH, 0⟩ 0 none none).result =
      keymaster_error_t.KM_ERROR_OK := by
  decide

/-- C1 amended: only configure short-circuits on a non-OK stored error,
returning that same error without reaching Send; every other operation
method is an unimplemented stub that returns KM_ERROR_OK without checking
the error state and without reaching Send. -/
theorem C1_amended (dev : TrustyKeymasterDevice)
    (h : dev.error_ ≠ keymaster_error_t.KM_ERROR_OK)
    (params ps : Option ParamSet) (sendResult : keymaster_error_t)
    (purpose op_handle len key_format export_format : Nat)
    (b1 b2 b3 : Option Blob) :
    dev.configure params sendResult = ⟨dev.error_, 0, dev⟩ ∧
    (dev.add_rng_entropy b1 len).result = keymaster_error_t.KM_ERROR_OK ∧
    (dev.generate_key ps).result = keymaster_error_t.KM_ERROR_OK ∧
    (dev.get_key_characteristics b1 b2 b3).result = keymaster_error_t.KM_ERROR_OK ∧
    (dev.import_key ps key_format b1).result = keymaster_error_t.KM_ERROR_OK ∧
    (dev.export_key export_format b1 b2 b3).result = keymaster_error_t.KM_ERROR_OK ∧
    (dev.attest_key b1 ps).result = keymaster_error_t.KM_ERROR_OK ∧
    (dev.upgrade_key b1 ps).result = keymaster_error_t.KM_ERROR_OK ∧
    (dev.begin purpose b1 ps).result = keymaster_error_t.KM_ERROR_OK ∧
    (dev.update op_handle ps b1).result = keymaster_error_t.KM_ERROR_OK ∧
    (dev.finish op_handle ps b1 b2).result = keymaster_error_t.KM_ERROR_OK ∧
    (dev.abort op_handle).result = keymaster_error_t.KM_ERROR_OK := by
  refine ⟨?_, rfl, rfl, rfl, rfl, rfl, rfl, rfl, rfl, rfl, rfl, rfl⟩
  simp only [TrustyKeymasterDevice.configure, if_pos h]

/-- Witness for C1 amended at a fused device. -/
theorem C1_amended_witness :
    TrustyKeymasterDevice.configure
      ⟨keymaster_error_t.KM_ERROR_VERSION_MISMATCH, 0⟩ none
      keymaster_error_t.KM_ERROR_OK =
      ⟨keymaster_error_t.KM_ERROR_VERSION_MISMATCH, 0,
       ⟨keymaster_error_t.KM_ERROR_VERSION_MISMATCH, 0⟩⟩ ∧
    (TrustyKeymasterDevice.begin
      ⟨keymaster_error_t.KM_ERROR_VERSION_MISMATCH, 0⟩ 0 none none).result =
      keymaster_error_t.KM_ERROR_OK := by
  have h := C1_amended ⟨keymaster_error_t.KM_ERROR_VERSION_MISMATCH, 0⟩
    (by decide) none none keymaster_error_t.KM_ERROR_OK 0 0 0 0 0 none none none
  exact ⟨h.1, h.2.2.2.2.2.2.2.2.1⟩

/-- C2 is false as stated: when the get-version call reports
invalid-argument the constructor does set the instance error to
version-mismatch, but a subsequent begin (an unimplemented stub) returns
KM_ERROR_OK, not version-mismatch. -/
theorem C2_counterexample :
    (construct 0 keymaster_error_t.KM_ERROR_INVALID_ARGUMENT 1).error_ =
      keymaster_error_t.KM_ERROR_VERSION_MISMATCH ∧
    (TrustyKeymasterDevice.begin
      (construct 0 keymaster_error_t.KM_ERROR_INVALID_ARGUMENT 1)
      0 none none).result ≠ keymaster_error_t.KM_ERROR_VERSION_MISMATCH := by
  decide

/-- C2 amended: if construction succeeds in connecting and the remote
answers the get-version command with invalid-argument or unimplemented,
the instance error state becomes version-mismatch (likewise, for any
get-version outcome, when the reported triple translates to a negative
message version); a subsequent configure returns version-mismatch without
reaching Send, while begin, an unimplemented stub, returns KM_ERROR_OK,
also without reaching Send. -/
theorem C2_amended (connect_rc : Int) (hrc : ¬ connect_rc < 0)
    (getVersionErr : keymaster_error_t)
    (hga : getVersionErr = keymaster_error_t.KM_ERROR_INVALID_ARGUMENT ∨
           getVersionErr = keymaster_error_t.KM_ERROR_UNIMPLEMENTED)
    (msg_ver : Int) (params : Option ParamSet)
    (sendResult : keymaster_error_t) (purpose : Nat) (key : Option Blob)
    (ps : Option ParamSet) :
    (construct connect_rc getVersionErr msg_ver).error_ =
      keymaster_error_t.KM_ERROR_VERSION_MISMATCH ∧
    (construct connect_rc getVersionErr msg_ver).configure params sendResult =
      ⟨keymaster_error_t.KM_ERROR_VERSION_MISMATCH, 0,
       construct connect_rc getVersionErr msg_ver⟩ ∧
    ((construct connect_rc getVersionErr msg_ver).begin purpose key ps).result =
      keymaster_error_t.KM_ERROR_OK ∧
    ((construct connect_rc getVersionErr msg_ver).begin purpose key ps).sendCalls = 0 ∧
    (∀ (ge : keymaster_error_t) (mv : Int), mv < 0 →
      (construct connect_rc ge mv).error_ =
        keymaster_error_t.KM_ERROR_VERSION_MISMATCH) := by
  have herr : (construct connect_rc getVersionErr msg_ver).error_ =
      keymaster_error_t.KM_ERROR_VERSION_MISMATCH := by
    simp [construct, if_neg hrc, if_pos hga]
  refine ⟨herr, ?_, rfl, rfl, ?_⟩
  · have hvm : keymaster_error_t.KM_ERROR_VERSION_MISMATCH ≠
        keymaster_error_t.KM_ERROR_OK := by decide
    simp only [TrustyKeymasterDevice.configure, herr]
    rw [if_pos hvm]
  · intro ge mv hmv
    by_cases hge : ge = keymaster_error_t.KM_ERROR_INVALID_ARGUMENT ∨
        ge = keymaster_error_t.KM_ERROR_UNIMPLEMENTED
    · simp [construct, if_neg hrc, if_pos hge]
    · simp [construct, if_neg hrc, if_neg hge, if_pos hmv]

/-- Witness for C2 amended at a concrete successful connect and an
invalid-argument get-version outcome. -/
theorem C2_amended_witness :
    (construct 0 keymaster_error_t.KM_ERROR_INVALID_ARGUMENT 1).error_ =
      keymaster_error_t.KM_ERROR_VERSION_MISMATCH ∧
    (construct 0 keymaster_error_t.KM_ERROR_INVALID_ARGUMENT 1).configure none
      keymaster_error_t.KM_ERROR_OK =
      ⟨keymaster_error_t.KM_ERROR_VERSION_MISMATCH, 0,
       construct 0 keymaster_error_t.KM_ERROR_INVALID_ARGUMENT 1⟩ ∧
    (construct 0 keymaster_error_t.KM_ERROR_UNKNOWN_ERROR (-2)).error_ =
      keymaster_error_t.KM_ERROR_VERSION_MISMATCH := by
  have h := C2_amended 0 (by decide) keymaster_error_t.KM_ERROR_INVALID_ARGUMENT
    (Or.inl rfl) 1 none keymaster_error_t.KM_ERROR_OK 0 none none
  exact ⟨h.1, h.2.1, h.2.2.2.2 keymaster_error_t.KM_ERROR_UNKNOWN_ERROR (-2) (by decide)⟩

/-- C6: on a healthy instance, configure with a parameter set that lacks
the OS-version tag or the OS-patch-level tag returns invalid-argument
without reaching Send; with both tags present it reaches Send exactly
once and returns the result of that Send call. -/
theorem C6_configure_tags (dev : TrustyKeymasterDevice)
    (h : dev.error_ = keymaster_error_t.KM_ERROR_OK)
    (ps : ParamSet) (sendResult : keymaster_error_t) :
    ((GetTagValue ps TAG_OS_VERSION = none ∨
      GetTagValue ps TAG_OS_PATCHLEVEL = none) →
      dev.configure (some ps) sendResult =
        ⟨keymaster_error_t.KM_ERROR_INVALID_ARGUMENT, 0, dev⟩) ∧
    (∀ v p, GetTagValue ps TAG_OS_VERSION = some v →
      GetTagValue ps TAG_OS_PATCHLEVEL = some p →
      (dev.configure (some ps) sendResult).result = sendResult ∧
      (dev.configure (some ps) sendResult).sendCalls = 1) := by
  constructor
  · intro hmiss
    cases hv : GetTagValue ps TAG_OS_VERSION <;>
      cases hp : GetTagValue ps TAG_OS_PATCHLEVEL <;>
      simp_all [TrustyKeymasterDevice.configure, h]
  · intro v p hv hp
    by_cases hs : sendResult = keymaster_error_t.KM_ERROR_OK <;>
      simp [TrustyKeymasterDevice.configure, h, hv, hp, hs]

/-- Witness for C6: a set holding only the patch-level tag is rejected
locally; a set holding both tags yields the Send outcome (here a busy
status) with one Send call. -/
theorem C6_configure_tags_witness :
    TrustyKeymasterDevice.configure ⟨keymaster_error_t.KM_ERROR_OK, 3⟩
      (some [(TAG_OS_PATCHLEVEL, 2)]) keymaster_error_t.KM_ERROR_OK =
      ⟨keymaster_error_t.KM_ERROR_INVALID_ARGUMENT, 0,
       ⟨keymaster_error_t.KM_ERROR_OK, 3⟩⟩ ∧
    (TrustyKeymasterDevice.configure ⟨keymaster_error_t.KM_ERROR_OK, 3⟩
      (some [(TAG_OS_VERSION, 1), (TAG_OS_PATCHLEVEL, 2)])
      keymaster_error_t.KM_ERROR_SECURE_HW_BUSY).result =
      keymaster_error_t.KM_ERROR_SECURE_HW_BUSY := by
  constructor
  · exact (C6_configure_tags ⟨keymaster_error_t.KM_ERROR_OK, 3⟩ rfl
      [(TAG_OS_PATCHLEVEL, 2)] keymaster_error_t.KM_ERROR_OK).1
      (Or.inl (by decide))
  · exact ((C6_configure_tags ⟨keymaster_error_t.KM_ERROR_OK, 3⟩ rfl
      [(TAG_OS_VERSION, 1), (TAG_OS_PATCHLEVEL, 2)]
      keymaster_error_t.KM_ERROR_SECURE_HW_BUSY).2 1 2
      (by decide) (by decide)).1

/-- C8 is false as stated: begin on a healthy instance with a null key
blob pointer returns KM_ERROR_OK, not the unexpected-null-pointer
error. -/
theorem C8_counterexample :
    (TrustyKeymasterDevice.begin ⟨keymaster_error_t.KM_ERROR_OK, 3⟩
      0 none none).result ≠
      keymaster_error_t.KM_ERROR_UNEXPECTED_NULL_POINTER := by
  decide

/-- C8 amended: only configure checks its required pointer argument,
returning unexpected-null-pointer on a null parameter set without
reaching Send; the stub methods (begin with a null key blob among them)
perform no null check and return KM_ERROR_OK. -/
theorem C8_amended (dev : TrustyKeymasterDevice)
    (h : dev.error_ = keymaster_error_t.KM_ERROR_OK)
    (sendResult : keymaster_error_t) (purpose key_format : Nat) :
    dev.configure none sendResult =
      ⟨keymaster_error_t.KM_ERROR_UNEXPECTED_NULL_POINTER, 0, dev⟩ ∧
    (dev.begin purpose none none).result = keymaster_error_t.KM_ERROR_OK ∧
    (dev.get_key_characteristics none none none).result =
      keymaster_error_t.KM_ERROR_OK ∧
    (dev.import_key none key_format none).result =
      keymaster_error_t.KM_ERROR_OK := by
  refine ⟨?_, rfl, rfl, rfl⟩
  simp [TrustyKeymasterDevice.configure, h]

/-- Witness for C8 amended at a concrete healthy device. -/
theorem C8_amended_witness :
    TrustyKeymasterDevice.configure ⟨keymaster_error_t.KM_ERROR_OK, 3⟩ none
      keymaster_error_t.KM_ERROR_OK =
      ⟨keymaster_error_t.KM_ERROR_UNEXPECTED_NULL_POINTER, 0,
       ⟨keymaster_error_t.KM_ERROR_OK, 3⟩⟩ ∧
    (TrustyKeymasterDevice.begin ⟨keymaster_error_t.KM_ERROR_OK, 3⟩
      7 none none).result = keymaster_error_t.KM_ERROR_OK := by
  have h := C8_amended ⟨keymaster_error_t.KM_ERROR_OK, 3⟩ rfl
    keymaster_error_t.KM_ERROR_OK 7 0
  exact ⟨h.1, h.2.1⟩

/-- C10: every operation method other than configure returns
KM_ERROR_OK for every instance state and every argument, reaches Send
zero times, and leaves the instance (its error state included)
unchanged. -/
theorem C10_stubs_unconditionally_ok :
    ∀ (dev : TrustyKeymasterDevice)
      (purpose key_format export_format op_handle len : Nat)
      (b1 b2 b3 : Option Blob) (ps : Option ParamSet),
    dev.add_rng_entropy b1 len = ⟨keymaster_error_t.KM_ERROR_OK, 0, dev⟩ ∧
    dev.generate_key ps = ⟨keymaster_error_t.KM_ERROR_OK, 0, dev⟩ ∧
    dev.get_key_characteristics b1 b2 b3 = ⟨keymaster_error_t.KM_ERROR_OK, 0, dev⟩ ∧
    dev.import_key ps key_format b1 = ⟨keymaster_error_t.KM_ERROR_OK, 0, dev⟩ ∧
    dev.export_key export_format b1 b2 b3 = ⟨keymaster_error_t.KM_ERROR_OK, 0, dev⟩ ∧
    dev.attest_key b1 ps = ⟨keymaster_error_t.KM_ERROR_OK, 0, dev⟩ ∧
    dev.upgrade_key b1 ps = ⟨keymaster_error_t.KM_ERROR_OK, 0, dev⟩ ∧
    dev.begin purpose b1 ps = ⟨keymaster_error_t.KM_ERROR_OK, 0, dev⟩ ∧
    dev.update op_handle ps b1 = ⟨keymaster_error_t.KM_ERROR_OK, 0, dev⟩ ∧
    dev.finish op_handle ps b1 b2 = ⟨keymaster_error_t.KM_ERROR_OK, 0, dev⟩ ∧
    dev.abort op_handle = ⟨keymaster_error_t.KM_ERROR_OK, 0, dev⟩ := by
  intro dev purpose key_format export_format op_handle len b1 b2 b3 ps
  exact ⟨rfl, rfl, rfl, rfl, rfl, rfl, rfl, rfl, rfl, rfl, rfl⟩

end keymaster

namespace init

/-- C9: ParseSection fails (recording no import and writing the matching
error string) exactly when the argument vector size differs from two or
property expansion of the argument fails; otherwise it appends the
expanded path with its line number to the pending import list, records
the filename if none was recorded yet, and returns success. -/
theorem C9_parse_section (st : ImportParser)
    (expand_props : String → Option String) (args : List String)
    (filename : String) (line : Int) :
    (args.length ≠ 2 →
      ParseSection st expand_props args filename line =
        ⟨false, st, some "single argument needed for import\n"⟩) ∧
    (args.length = 2 → expand_props (args.getD 1 "") = none →
      ParseSection st expand_props args filename line =
        ⟨false, st, some "error while expanding import"⟩) ∧
    (∀ conf_file, args.length = 2 →
      expand_props (args.getD 1 "") = some conf_file →
      ParseSection st expand_props args filename line =
        ⟨true,
         ⟨if st.filename_.isEmpty then filename else st.filename_,
          st.imports_ ++ [(conf_file, line)]⟩,
         none⟩) ∧
    ((ParseSection st expand_props args filename line).ret = false ↔
      (args.length ≠ 2 ∨ expand_props (args.getD 1 "") = none)) := by
  refine ⟨?_, ?_, ?_, ?_⟩
  · intro h
    unfold ParseSection
    rw [if_pos h]
  · intro h2 hf
    unfold ParseSection
    rw [if_neg (by omega), hf]
  · intro conf_file h2 hf
    unfold ParseSection
    rw [if_neg (by omega), hf]
  · by_cases h2 : args.length = 2
    · cases hf : expand_props (args.getD 1 "") with
      | none =>
        unfold ParseSection
        rw [if_neg (by omega), hf]
        simp [h2]
      | some c =>
        unfold ParseSection
        rw [if_neg (by omega), hf]
        simp [h2]
    · unfold ParseSection
      rw [if_pos h2]
      simp [h2]

/-- Witness for C9: a one-element argument vector fails with the arity
error and leaves the state untouched; a two-element vector with an
identity expansion appends the path and records the filename. -/
theorem C9_parse_section_witness :
    ParseSection ⟨"", []⟩ (fun s => some s) ["on"] "a.rc" 1 =
      ⟨false, ⟨"", []⟩, some "single argument needed for import\n"⟩ ∧
    ParseSection ⟨"", []⟩ (fun s => some s) ["on", "b.rc"] "a.rc" 1 =
      ⟨true, ⟨"a.rc", [("b.rc", 1)]⟩, none⟩ := by
  constructor
  · exact (C9_parse_section ⟨"", []⟩ (fun s => some s) ["on"] "a.rc" 1).1
      (by decide)
  · have h := (C9_parse_section ⟨"", []⟩ (fun s => some s) ["on", "b.rc"]
      "a.rc" 1).2.2.1 "b.rc" rfl rfl
    rw [h]
    decide

end init

